import Mathlib

set_option maxRecDepth 8192

/-!
Verification of the RecipeCore summarize/save pipeline, a shallow
embedding of `src/recipecore_prototype.py`.

The embedding models the extraction-and-formatting core: URL
normalization, the two-tier extraction strategy (native adapter with
fallback to generic schema.org parsing), defensive field normalization,
summary composition into tagged text segments, and the save-filename
derivation.  The Tk text widget is modelled as a list of segments; the
three effectful steps (`scrape_me`, `requests.get`, `scrape_html`) are
oracle parameters.
-/

namespace RecipeCore

/-- One styled unit of text inserted into the output area, i.e. one
`output_text.insert(tk.END, text, tag)` call; an untagged insert carries
the tag `""`. -/
structure Segment where
  text : String
  tag : String
deriving DecidableEq

/-- The whitespace characters `str.strip()` removes (ASCII range). -/
def pyIsSpace (c : Char) : Bool :=
  c == ' ' || c == '\t' || c == '\n' || c == '\r' || c == '\x0b' || c == '\x0c'

/-- Strip `pyIsSpace` characters from both ends of a character list. -/
def pyStripList (l : List Char) : List Char :=
  ((l.dropWhile pyIsSpace).reverse.dropWhile pyIsSpace).reverse

/-- Python `s.strip()`: drop leading and trailing whitespace. -/
def pyStripStr (s : String) : String :=
  String.mk (pyStripList s.data)

/-- Whether the first list is an initial run of the second. -/
def isPrefixChars : List Char → List Char → Bool
  | [], _ => true
  | _ :: _, [] => false
  | p :: ps, c :: cs => p == c && isPrefixChars ps cs

/-- Python `s.startswith(p)` on code points. -/
def strStartsWith (s p : String) : Bool :=
  isPrefixChars p.data s.data

/-- `if not url.startswith(('http://', 'https://')): url = 'https://' + url`
(src line 67). -/
def normalizeUrl (url : String) : String :=
  if strStartsWith url "http://" || strStartsWith url "https://" then url
  else "https://" ++ url

/-- A value returned by a time accessor: a Python int, a Python float
(modelled as a rational; `int()` truncates toward zero), or any other
value, rendered via its string form. -/
inductive TimeVal where
  | int (n : Int)
  | float (q : Rat)
  | str (s : String)
deriving DecidableEq

/-- An exception class, as far as the handlers distinguish it: a
`TypeError`/`ValueError` (caught inside the time loop, src line 133)
versus anything else. -/
inductive ExcKind where
  | typeValue
  | other
deriving DecidableEq

/-- Outcome of probing a time attribute by name: `hasattr` false
(`missing`), the getter raising, or the getter returning an optional
value (`None` mapped to `none`). -/
inductive AttrCall where
  | missing
  | raises (kind : ExcKind) (msg : String)
  | returns (val : Option TimeVal)

/-- Outcome of calling one of the other accessors (`title()`, `yields()`,
`description()`, `ingredients()`, `instructions()`): these calls are not
individually guarded in the source, so a raise propagates to the
composing `except` block.  A missing attribute would raise
`AttributeError` and is subsumed by `raises`. -/
inductive CallResult (α : Type) where
  | raises (msg : String)
  | returns (val : Option α)

/-- The ExtractionResult produced by whichever adapter succeeded.
Time attributes are looked up by name (the source probes names with
`hasattr`/`getattr`, src lines 117-127). -/
structure Scraper where
  title : CallResult String
  yields : CallResult String
  timeAttr : String → AttrCall
  description : CallResult String
  ingredients : CallResult (List String)
  instructions : CallResult String

/-- Python `value or default` for an optional string: `None` and the
empty string are both falsy. -/
def pyOrStr (v : Option String) (d : String) : String :=
  match v with
  | none => d
  | some s => if s = "" then d else s

/-- Python slice `s[:n]`: the first `n` code points. -/
def pySlice (s : String) (n : Nat) : String :=
  String.mk (s.data.take n)

/-- `if len(description) > 600: description = description[:597] + "..."`
(src lines 112-113). -/
def truncateDescription (d : String) : String :=
  if 600 < d.length then pySlice d 597 ++ "..." else d

/-- Python `int()` applied to a rational: truncation toward zero. -/
def truncFloat (q : Rat) : Int :=
  q.num.tdiv (q.den : Int)

/-- `f"{label}: {int(value)} min"` for numeric values and
`f"{label}: {value}"` otherwise (src lines 129-132). -/
def formatTime (label : String) (v : TimeVal) : String :=
  match v with
  | .int n => label ++ ": " ++ toString n ++ " min"
  | .float q => label ++ ": " ++ toString (truncFloat q) ++ " min"
  | .str s => label ++ ": " ++ s

/-- One iteration of the time loop for attribute `name` with display
`label`: skipped when the attribute is absent, the value is `None`, or
the getter raises `TypeError`/`ValueError`; any other exception
propagates (src lines 123-134). -/
def timeEntry (lookup : String → AttrCall) (name label : String) :
    Except String (Option String) :=
  match lookup name with
  | AttrCall.missing => Except.ok none
  | AttrCall.raises ExcKind.typeValue _ => Except.ok none
  | AttrCall.raises ExcKind.other m => Except.error m
  | AttrCall.returns none => Except.ok none
  | AttrCall.returns (some v) => Except.ok (some (formatTime label v))

/-- The time loop over the source's `time_methods` list, which probes
the attribute names `total_time`, `preptime` and `cooktime`
(src lines 117-121). -/
def collectTimes (lookup : String → AttrCall) : Except String (List String) :=
  match timeEntry lookup "total_time" "Total" with
  | Except.error m => Except.error m
  | Except.ok o1 =>
    match timeEntry lookup "preptime" "Prep" with
    | Except.error m => Except.error m
    | Except.ok o2 =>
      match timeEntry lookup "cooktime" "Cook" with
      | Except.error m => Except.error m
      | Except.ok o3 => Except.ok (o1.toList ++ o2.toList ++ o3.toList)

/-- Python `sep.join(l)`. -/
def joinSep (sep : String) : List String → String
  | [] => ""
  | [x] => x
  | x :: xs => x ++ sep ++ joinSep sep xs

/-- `time_str = " | ".join(times) if times else "Times not available"`,
with `" (check original page)"` appended when the fallback was used and
no time was found (src lines 136-138). -/
def timeLine (times : List String) (fallbackUsed : Bool) : String :=
  let base := if times.isEmpty then "Times not available" else joinSep " | " times
  if fallbackUsed && times.isEmpty then base ++ " (check original page)" else base

/-- The four overview segments inserted at src lines 141-144. -/
def headSegments (tv yv dv : Option String) (times : List String)
    (fallbackUsed : Bool) : List Segment :=
  [⟨pyOrStr tv "Recipe (title not found)" ++ "\n\n", "title"⟩,
   ⟨"Servings: " ++ pyOrStr yv "N/A" ++ "\n", "heading"⟩,
   ⟨timeLine times fallbackUsed ++ "\n", "heading"⟩,
   ⟨"Notes: " ++ truncateDescription (pyOrStr dv "No description available.") ++ "\n\n", "heading"⟩]

/-- The ingredients paragraph (src lines 147-154): a heading plus one
bulleted body segment per item and a blank untagged line, or the
`(not found)` heading when the list is `None` or empty. -/
def ingredientSegs (iv : Option (List String)) : List Segment :=
  match iv with
  | some l =>
    if l.isEmpty then [⟨"Ingredients: (not found)\n\n", "heading"⟩]
    else ⟨"Ingredients:\n", "heading"⟩ ::
      (l.map (fun item => Segment.mk ("• " ++ pyStripStr item ++ "\n") "body") ++ [⟨"\n", ""⟩])
  | none => [⟨"Ingredients: (not found)\n\n", "heading"⟩]

/-- Split a string at newline characters (the instruction text is
newline-delimited; empty pieces are filtered out afterwards exactly as
the source filters blank lines). -/
def splitLinesAux : List Char → List Char → List String
  | [], acc => [String.mk acc.reverse]
  | c :: rest, acc =>
    if c == '\n' then String.mk acc.reverse :: splitLinesAux rest []
    else splitLinesAux rest (c :: acc)

/-- All newline-separated pieces of a string. -/
def splitLines (s : String) : List String :=
  splitLinesAux s.data []

/-- `f"{i}. {step}\n"` for each step, numbering from 1 (src lines 161-162). -/
def numberSteps : List String → Nat → List Segment
  | [], _ => []
  | s :: rest, i => Segment.mk (toString i ++ ". " ++ s ++ "\n") "body" :: numberSteps rest (i + 1)

/-- The instructions paragraph (src lines 157-165): a heading plus one
numbered body segment per non-empty trimmed line and a blank untagged
line, or the `(not extracted)` heading when the text is `None` or empty. -/
def instructionSegs (iv : Option String) : List Segment :=
  match iv with
  | some t =>
    if t = "" then [⟨"Instructions: (not extracted – see original site)\n", "heading"⟩]
    else
      let steps := ((splitLines t).map pyStripStr).filter (fun s => s != "")
      ⟨"Instructions:\n", "heading"⟩ :: (numberSteps steps 1 ++ [⟨"\n", ""⟩])
  | none => [⟨"Instructions: (not extracted – see original site)\n", "heading"⟩]

/-- The error segment appended by the composing `except` handler
(src lines 167-169). -/
def errorSegOf (m : String) : Segment :=
  ⟨"\nUnexpected parsing issue: " ++ m ++ "\nPartial data shown above.", "error"⟩

/-- The compose stage (src lines 101-165), started right after the text
area was cleared: the segments inserted so far, paired with the message
of an uncaught exception when one aborted composition.  The field order
follows the source: title, yields, description and the time loop are
read before any segment is inserted; the four overview segments are then
inserted, followed by the ingredients and instructions paragraphs. -/
def composeCore (s : Scraper) (fallbackUsed : Bool) : List Segment × Option String :=
  match s.title with
  | CallResult.raises m => ([], some m)
  | CallResult.returns tv =>
    match s.yields with
    | CallResult.raises m => ([], some m)
    | CallResult.returns yv =>
      match s.description with
      | CallResult.raises m => ([], some m)
      | CallResult.returns dv =>
        match collectTimes s.timeAttr with
        | Except.error m => ([], some m)
        | Except.ok times =>
          let head := headSegments tv yv dv times fallbackUsed
          match s.ingredients with
          | CallResult.raises m => (head, some m)
          | CallResult.returns iv =>
            let withIng := head ++ ingredientSegs iv
            match s.instructions with
            | CallResult.raises m => (withIng, some m)
            | CallResult.returns insv => (withIng ++ instructionSegs insv, none)

/-- The compose stage including its `except` handler: on an uncaught
exception the already-inserted segments are kept and a single error
segment is appended (src lines 167-169). -/
def composeSegs (s : Scraper) (fallbackUsed : Bool) : List Segment :=
  match composeCore s fallbackUsed with
  | (segs, none) => segs
  | (segs, some m) => segs ++ [errorSegOf m]

/-- Outcome of `scrape_me(url)`: a scraper, the
`WebsiteNotImplementedError` that triggers the fallback, or any other
exception. -/
inductive NativeResult where
  | ok (s : Scraper)
  | unsupported
  | err (msg : String)

/-- Outcome of `requests.get(url, ...)` followed by
`raise_for_status()`: the markup, or a `requests.RequestException`. -/
inductive FetchResult where
  | ok (html : String)
  | err (msg : String)

/-- Outcome of `scrape_html(html=..., org_url=...)`. -/
inductive GenericResult where
  | ok (s : Scraper)
  | err (msg : String)

/-- Oracle for the three effectful steps of one summarize call. -/
structure Env where
  native : NativeResult
  fetch : FetchResult
  generic : GenericResult

/-- Observable outcome of one `summarize_recipe` call. -/
structure SummarizeOut where
  widget : List Segment
  inserts : List Segment
  warned : Bool
  fetchAttempted : Bool
  urlUsed : Option String

/-- The loading message inserted at src line 72 (untagged). -/
def loadingSeg : Segment :=
  ⟨"Fetching and summarizing recipe...\n\n", ""⟩

/-- The fallback note inserted at src line 89. -/
def noteSeg : Segment :=
  ⟨"Note: Using fallback schema.org parsing (may miss some details).\n\n", "note"⟩

/-- The whole `summarize_recipe` handler (src lines 53-169).  `widget`
is the final contents of the output area (the `delete(1.0, tk.END)`
calls clear it, src lines 71 and 104), `inserts` records every insert
performed during the call in order, `warned` whether the empty-input
warning box was shown, `fetchAttempted` whether `requests.get` was
reached, and `urlUsed` the URL handed to `scrape_me`. -/
def summarize (rawUrl : String) (env : Env) (initial : List Segment) : SummarizeOut :=
  let url0 := pyStripStr rawUrl
  if url0 = "" then
    { widget := initial, inserts := [], warned := true,
      fetchAttempted := false, urlUsed := none }
  else
    let url := normalizeUrl url0
    match env.native with
    | NativeResult.ok s =>
      { widget := composeSegs s false,
        inserts := loadingSeg :: composeSegs s false,
        warned := false, fetchAttempted := false, urlUsed := some url }
    | NativeResult.err m =>
      { widget := [loadingSeg, ⟨"Parsing error: " ++ m ++ "\nTry a different recipe site.\n", "error"⟩],
        inserts := [loadingSeg, ⟨"Parsing error: " ++ m ++ "\nTry a different recipe site.\n", "error"⟩],
        warned := false, fetchAttempted := false, urlUsed := some url }
    | NativeResult.unsupported =>
      match env.fetch with
      | FetchResult.err m =>
        { widget := [loadingSeg, ⟨"Could not load page: " ++ m ++ "\nTry another URL.\n", "error"⟩],
          inserts := [loadingSeg, ⟨"Could not load page: " ++ m ++ "\nTry another URL.\n", "error"⟩],
          warned := false, fetchAttempted := true, urlUsed := some url }
      | FetchResult.ok _ =>
        match env.generic with
        | GenericResult.err m =>
          { widget := [loadingSeg, ⟨"Fallback failed: " ++ m ++ "\n", "error"⟩],
            inserts := [loadingSeg, ⟨"Fallback failed: " ++ m ++ "\n", "error"⟩],
            warned := false, fetchAttempted := true, urlUsed := some url }
        | GenericResult.ok s =>
          { widget := composeSegs s true,
            inserts := loadingSeg :: noteSeg :: composeSegs s true,
            warned := false, fetchAttempted := true, urlUsed := some url }

/-- The ASCII fragment of the regex class `\w`: `[A-Za-z0-9_]`. -/
def asciiWordChar (c : Char) : Bool :=
  c.isAlphanum || c == '_'

/-- The word characters of the Latin-1 supplement (U+0080 to U+00FF):
the feminine and masculine ordinal indicators (U+00AA, U+00BA), the
micro sign (U+00B5) and the accented letters U+00C0 to U+00FF minus the
multiplication (U+00D7) and division (U+00F7) signs. -/
def latin1Letter (c : Char) : Bool :=
  (192 ≤ c.toNat && c.toNat ≤ 255 && !(c.toNat == 215) && !(c.toNat == 247))
  || c.toNat == 170 || c.toNat == 181 || c.toNat == 186

/-- Python's regex `\w` on str patterns, as used by
`re.sub(r'[^\w\s-]', '', title)` (src line 191): it is Unicode-aware,
matching `[A-Za-z0-9_]` on the ASCII range and additionally every
non-ASCII character Unicode classifies as a word character.  This model
reproduces that classification exactly on the code points up to U+00FF
(ASCII plus the Latin-1 supplement); characters beyond that range are
not classified faithfully, so the theorems that quantify over arbitrary
titles take the classifier as a parameter constrained only on the ASCII
range and hold for the full Unicode class as an instance. -/
def pyWordChar (c : Char) : Bool :=
  if c.toNat < 128 then asciiWordChar c else latin1Letter c

/-- A character the first sanitize pass keeps under word classifier `w`:
word characters, whitespace and the hyphen (the complement of the
pattern `[^\w\s-]`). -/
def keepCharW (w : Char → Bool) (c : Char) : Bool :=
  w c || pyIsSpace c || c == '-'

/-- `re.sub(r'\s+', '_', ...)` (src line 192): each maximal run of
whitespace becomes a single underscore.  The flag records whether the
previous character was part of a whitespace run. -/
def collapseWsAux : List Char → Bool → List Char
  | [], _ => []
  | c :: rest, inRun =>
    if pyIsSpace c then
      (if inRun then collapseWsAux rest true else '_' :: collapseWsAux rest true)
    else c :: collapseWsAux rest false

/-- Python `s.strip(ch)`: drop the character from both ends. -/
def stripEnds (ch : Char) (l : List Char) : List Char :=
  ((l.dropWhile (fun c => c == ch)).reverse.dropWhile (fun c => c == ch)).reverse

/-- The filename sanitizer of `save_and_open` (src lines 191-193),
parameterized by the regex engine's word classifier `w`: remove the
characters `[^\w\s-]`, collapse whitespace runs to single underscores,
trim leading/trailing underscores. -/
def sanitizeTitleW (w : Char → Bool) (title : String) : String :=
  String.mk (stripEnds '_' (collapseWsAux (title.data.filter (keepCharW w)) false))

/-- `if not clean_title: clean_title = "edited_recipe"` (src lines 195-196). -/
def cleanTitleW (w : Char → Bool) (title : String) : String :=
  if sanitizeTitleW w title = "" then "edited_recipe" else sanitizeTitleW w title

/-- The saved filename (src lines 198-204).  The filesystem check
`os.path.exists` and the clock are I/O and enter as parameters: when the
base file already exists, `_<timestamp>` is inserted before the `.txt`
extension. -/
def saveFileNameW (w : Char → Bool) (title : String) (alreadyExists : Bool)
    (timestamp : String) : String :=
  if alreadyExists then cleanTitleW w title ++ "_" ++ timestamp ++ ".txt"
  else cleanTitleW w title ++ ".txt"

/-- The sanitizer instantiated with the `pyWordChar` model of `\w`. -/
def sanitizeTitle : String → String :=
  sanitizeTitleW pyWordChar

/-- The cleaned title instantiated with the `pyWordChar` model of `\w`. -/
def cleanTitle : String → String :=
  cleanTitleW pyWordChar

/-- The saved filename instantiated with the `pyWordChar` model of `\w`. -/
def saveFileName : String → Bool → String → String :=
  saveFileNameW pyWordChar

/-- The title used for the filename: the first non-empty stripped line
of the text area, or `"Recipe"` (src lines 187-188). -/
def firstTitleLine (text : String) : String :=
  (((splitLines text).map pyStripStr).filter (fun s => s != "")).headD "Recipe"

/-- Modelled from the spec: the ExtractionResult contract of spec §3
names the optional time accessors `total_time`, `prep_time` and
`cook_time` (the concrete `recipe_scrapers` adapters are outside
`src/`).  This builds such a result: the three named time attributes
exist and return the given optional values; every other attribute name
is absent. -/
def specScraper (t y d : Option String) (tt pt ct : Option TimeVal)
    (ing : Option (List String)) (ins : Option String) : Scraper :=
  { title := CallResult.returns t,
    yields := CallResult.returns y,
    timeAttr := fun n =>
      if n = "total_time" then AttrCall.returns tt
      else if n = "prep_time" then AttrCall.returns pt
      else if n = "cook_time" then AttrCall.returns ct
      else AttrCall.missing,
    description := CallResult.returns d,
    ingredients := CallResult.returns ing,
    instructions := CallResult.returns ins }

/-- An extraction result whose every optional accessor returns no value. -/
def allNoneScraper : Scraper :=
  specScraper none none none none none none none none

/-- The fallback scenario's generic-adapter result: title `"Test Pie"`,
everything else absent. -/
def testPieScraper : Scraper :=
  specScraper (some "Test Pie") none none none none none none none

/-- The claim C2 extraction result: `total_time()` returns 45,
`prep_time()` returns no value, `cook_time()` returns `"varies"`. -/
def c2Scraper : Scraper :=
  specScraper none none none (some (TimeVal.int 45)) none (some (TimeVal.str "varies")) none none

/-- An extraction result whose `description()` raises while every other
accessor succeeds. -/
def c3Scraper : Scraper :=
  { title := CallResult.returns (some "T"),
    yields := CallResult.returns (some "4 servings"),
    timeAttr := fun _ => AttrCall.missing,
    description := CallResult.raises "boom",
    ingredients := CallResult.returns (some ["flour"]),
    instructions := CallResult.returns (some "mix") }

/-- An extraction result whose `title()` raises. -/
def c9Scraper : Scraper :=
  { title := CallResult.raises "boom",
    yields := CallResult.returns none,
    timeAttr := fun _ => AttrCall.missing,
    description := CallResult.returns none,
    ingredients := CallResult.returns none,
    instructions := CallResult.returns none }

/-- The end-to-end fallback scenario environment: native adapter
unsupported, fetch succeeds, generic adapter returns the Test Pie
result. -/
def envC1 : Env :=
  ⟨NativeResult.unsupported, FetchResult.ok "<html/>", GenericResult.ok testPieScraper⟩

/-- An environment in which every step fails; used where the oracle's
outcome is irrelevant. -/
def envW : Env :=
  ⟨NativeResult.err "nat", FetchResult.err "net", GenericResult.err "gen"⟩

/-- The outcome of the fallback end-to-end scenario. -/
def c1Out : SummarizeOut :=
  summarize "example.com" envC1 []

/-- The title `Mom's Apple Pie!` (the apostrophe written by code point). -/
def momsTitle : String :=
  "Mom" ++ String.mk [Char.ofNat 39] ++ "s Apple Pie!"

/-- The accented letter U+00E9 (e with acute), a non-ASCII character
Python's `\w` matches. -/
def eAcute : Char :=
  Char.ofNat 233

/-- An accented title (the French spelling of coffee plus an exclamation
mark), written by code point. -/
def cafeTitle : String :=
  "Caf" ++ String.mk [eAcute] ++ "!"

/-- A 650-character description. -/
def longDescription : String :=
  String.mk (List.replicate 650 'a')

/-- Replace the result of one attribute name in a lookup table. -/
def overrideAttr (f : String → AttrCall) (n : String) (v : AttrCall) : String → AttrCall :=
  fun x => if x = n then v else f x

/-- A string's length is the length of its character list. -/
theorem strLengthData (s : String) : s.length = s.data.length := rfl

/-- Appending strings appends their character lists. -/
theorem strAppendDataEq (a b : String) : (a ++ b).data = a.data ++ b.data := rfl

/-- The first character of a string survives appending to the right. -/
theorem dataHeadAppend (a b : String) (c : Char) (h : a.data.head? = some c) :
    (a ++ b).data.head? = some c := by
  obtain ⟨l⟩ := a
  obtain ⟨l2⟩ := b
  cases l with
  | nil => simp at h
  | cons x xs =>
    have hx : x = c := by simpa using h
    subst hx
    rfl

/-- Strings with different first characters are different. -/
theorem neOfDataHead (s t : String) (c d : Char) (hc : s.data.head? = some c)
    (hd : t.data.head? = some d) (hcd : c ≠ d) : s ≠ t := by
  intro h
  rw [h, hd] at hc
  exact hcd (Option.some.inj hc).symm

/-- Membership is preserved from `dropWhile` back to the original list. -/
theorem memOfMemDropWhile (p : Char → Bool) (l : List Char) (c : Char)
    (h : c ∈ l.dropWhile p) : c ∈ l := by
  induction l with
  | nil => simp at h
  | cons a t ih =>
    rw [List.dropWhile_cons] at h
    by_cases hpa : p a = true
    · rw [if_pos hpa] at h
      exact List.mem_cons_of_mem _ (ih h)
    · rw [if_neg hpa] at h
      exact h

/-- Membership is preserved from `stripEnds` back to the original list. -/
theorem memOfMemStripEnds (ch : Char) (l : List Char) (c : Char)
    (h : c ∈ stripEnds ch l) : c ∈ l := by
  unfold stripEnds at h
  rw [List.mem_reverse] at h
  have h2 := memOfMemDropWhile _ _ _ h
  rw [List.mem_reverse] at h2
  exact memOfMemDropWhile _ _ _ h2

/-- Every character of a whitespace-collapsed list is an underscore or a
non-whitespace character of the input. -/
theorem memCollapseWsAux (l : List Char) (b : Bool) (c : Char)
    (h : c ∈ collapseWsAux l b) :
    c = '_' ∨ (c ∈ l ∧ pyIsSpace c = false) := by
  induction l generalizing b with
  | nil => simp [collapseWsAux] at h
  | cons a t ih =>
    by_cases hs : pyIsSpace a = true
    · cases b with
      | true =>
        simp only [collapseWsAux, if_pos hs, if_pos rfl] at h
        rcases ih true h with h1 | ⟨h2, h3⟩
        · exact Or.inl h1
        · exact Or.inr ⟨List.mem_cons_of_mem _ h2, h3⟩
      | false =>
        simp only [collapseWsAux, if_pos hs] at h
        rcases List.mem_cons.mp h with h1 | h1
        · exact Or.inl h1
        · rcases ih true h1 with h2 | ⟨h3, h4⟩
          · exact Or.inl h2
          · exact Or.inr ⟨List.mem_cons_of_mem _ h3, h4⟩
    · simp only [collapseWsAux, if_neg hs] at h
      rcases List.mem_cons.mp h with h1 | h1
      · subst h1
        exact Or.inr ⟨List.mem_cons_self _ _, Bool.eq_false_iff.mpr hs⟩
      · rcases ih false h1 with h2 | ⟨h3, h4⟩
        · exact Or.inl h2
        · exact Or.inr ⟨List.mem_cons_of_mem _ h3, h4⟩

/-- Under any word classifier admitting the underscore, every character
of a sanitized title is a word character or a hyphen. -/
theorem sanitizeCharsW (w : Char → Bool) (hu : w '_' = true) (t : String) (c : Char)
    (h : c ∈ (sanitizeTitleW w t).data) : w c = true ∨ c = '-' := by
  have h1 : c ∈ stripEnds '_' (collapseWsAux (t.data.filter (keepCharW w)) false) := h
  have h2 := memOfMemStripEnds _ _ _ h1
  rcases memCollapseWsAux _ _ _ h2 with h3 | ⟨h4, h5⟩
  · subst h3
    exact Or.inl hu
  · rw [List.mem_filter] at h4
    obtain ⟨_, hk⟩ := h4
    unfold keepCharW at hk
    simp only [Bool.or_eq_true] at hk
    rcases hk with (hw | hsp) | hh
    · exact Or.inl hw
    · rw [hsp] at h5
      cases h5
    · exact Or.inr (by simpa using hh)

/-- The `pyWordChar` model agrees with `[A-Za-z0-9_]` on the ASCII range. -/
theorem pyWordCharAscii : ∀ c : Char, c.toNat < 128 → pyWordChar c = asciiWordChar c := by
  intro c h
  unfold pyWordChar
  rw [if_pos h]

/-- Filtering with `keepCharW` depends only on the classifier's values
on the characters present; on an ASCII string any classifier agreeing
with `[A-Za-z0-9_]` on ASCII filters like the ASCII classifier. -/
theorem filterKeepAscii (w : Char → Bool)
    (hAscii : ∀ c : Char, c.toNat < 128 → w c = asciiWordChar c)
    (s : String) (hs : ∀ c ∈ s.data, c.toNat < 128) :
    s.data.filter (keepCharW w) = s.data.filter (keepCharW asciiWordChar) := by
  apply List.filter_congr
  intro c hc
  unfold keepCharW
  rw [hAscii c (hs c hc)]

/-- Claim C1: in the fallback end-to-end scenario (native adapter raises
`UnsupportedSiteError`, the fetch succeeds, the generic adapter extracts
title `"Test Pie"` with no time fields) the claim says the composed
output begins with a note segment, then the title segment, then a
heading containing `"Times not available (check original page)"`.  The
code inserts the fallback note but then clears the whole text area
before composing, so the final output begins with the title segment and
contains no note segment at all; the times heading is the third segment. -/
theorem C1_bug_eval :
    c1Out.inserts = loadingSeg :: noteSeg :: composeSegs testPieScraper true
    ∧ c1Out.widget = composeSegs testPieScraper true
    ∧ c1Out.widget.head? = some (Segment.mk "Test Pie\n\n" "title")
    ∧ noteSeg ∉ c1Out.widget
    ∧ c1Out.widget[2]? = some (Segment.mk "Times not available (check original page)\n" "heading") :=
  ⟨rfl, rfl, rfl, by decide, rfl⟩

/-- Claim C2: for an extraction result with `total_time() = 45`,
`prep_time()` absent-valued and `cook_time() = "varies"`, the claim says
the time line is `"Total: 45 min | Cook: varies"`.  The code probes the
attribute names `preptime` and `cooktime`, which the extraction-result
contract does not define, so the prep and cook times are never read and
the collected list is `["Total: 45 min"]` alone; joining the claimed
pair would have given the claimed line, which differs. -/
theorem C2_bug_eval :
    collectTimes c2Scraper.timeAttr = Except.ok ["Total: 45 min"]
    ∧ timeLine ["Total: 45 min"] true = "Total: 45 min"
    ∧ joinSep " | " ["Total: 45 min", "Cook: varies"] = "Total: 45 min | Cook: varies"
    ∧ ("Total: 45 min" : String) ≠ "Total: 45 min | Cook: varies" :=
  ⟨rfl, rfl, rfl, by decide⟩

/-- Claim C3 (counterexample): the claim says every accessor call is
individually guarded, so one raising accessor leaves the remaining
fields extracted.  For an extraction result whose `description()` raises
while `ingredients()` returns `["flour"]`, the whole composition aborts:
the output is the single error segment and the ingredient is never
rendered. -/
theorem C3_counterexample :
    composeSegs c3Scraper false = [errorSegOf "boom"]
    ∧ Segment.mk "• flour\n" "body" ∉ composeSegs c3Scraper false :=
  ⟨by decide, by decide⟩

/-- Claim C3 (amended): only the three time-attribute reads are guarded,
and only against `TypeError`/`ValueError` — such a raise is equivalent
to the attribute being absent.  An exception from any other accessor
(here `ingredients()`) aborts composition at that field: the segments
already emitted are kept and a single error segment is appended, but the
later fields are not extracted. -/
theorem C3_amended_thm (f : String → AttrCall) (m : String) (fb : Bool)
    (tv yv dv : Option String) (m2 : String) (insv : CallResult String)
    (ts : List String) (hts : collectTimes f = Except.ok ts) :
    collectTimes (overrideAttr f "total_time" (AttrCall.raises ExcKind.typeValue m))
      = collectTimes (overrideAttr f "total_time" AttrCall.missing)
    ∧ collectTimes (overrideAttr f "preptime" (AttrCall.raises ExcKind.typeValue m))
      = collectTimes (overrideAttr f "preptime" AttrCall.missing)
    ∧ collectTimes (overrideAttr f "cooktime" (AttrCall.raises ExcKind.typeValue m))
      = collectTimes (overrideAttr f "cooktime" AttrCall.missing)
    ∧ composeSegs ⟨CallResult.returns tv, CallResult.returns yv, f, CallResult.returns dv,
        CallResult.raises m2, insv⟩ fb
      = headSegments tv yv dv ts fb ++ [errorSegOf m2] := by
  refine ⟨rfl, rfl, rfl, ?_⟩
  have hcc : composeCore ⟨CallResult.returns tv, CallResult.returns yv, f, CallResult.returns dv,
      CallResult.raises m2, insv⟩ fb = (headSegments tv yv dv ts fb, some m2) := by
    simp only [composeCore, hts]
  simp [composeSegs, hcc]

/-- Witness for C3 (amended) at a concrete scraper whose `ingredients()`
raises. -/
theorem C3_amended_witness :
    collectTimes (fun _ => AttrCall.missing) = Except.ok []
    ∧ composeSegs ⟨CallResult.returns none, CallResult.returns none, fun _ => AttrCall.missing,
        CallResult.returns none, CallResult.raises "boom", CallResult.returns none⟩ false
      = headSegments none none none [] false ++ [errorSegOf "boom"] :=
  ⟨rfl, (C3_amended_thm (fun _ => AttrCall.missing) "m" false none none none "boom"
    (CallResult.returns none) [] rfl).2.2.2⟩

/-- Claim C4: a native-adapter failure other than the unsupported-site
error terminates immediately with the `"Parsing error"` message and no
fallback fetch; under fallback, a transport failure yields
`"Could not load page"` and a generic-adapter failure yields
`"Fallback failed"`; the three user-visible messages are pairwise
distinct for all underlying exception messages. -/
theorem C4_thm (m1 m2 m3 html : String) (f : FetchResult) (g : GenericResult) :
    (summarize "example.com" ⟨NativeResult.err m1, f, g⟩ []).widget
        = [loadingSeg, ⟨"Parsing error: " ++ m1 ++ "\nTry a different recipe site.\n", "error"⟩]
    ∧ (summarize "example.com" ⟨NativeResult.err m1, f, g⟩ []).fetchAttempted = false
    ∧ (summarize "example.com" ⟨NativeResult.unsupported, FetchResult.err m2, g⟩ []).widget
        = [loadingSeg, ⟨"Could not load page: " ++ m2 ++ "\nTry another URL.\n", "error"⟩]
    ∧ (summarize "example.com" ⟨NativeResult.unsupported, FetchResult.ok html, GenericResult.err m3⟩ []).widget
        = [loadingSeg, ⟨"Fallback failed: " ++ m3 ++ "\n", "error"⟩]
    ∧ ("Parsing error: " ++ m1 ++ "\nTry a different recipe site.\n")
        ≠ ("Could not load page: " ++ m2 ++ "\nTry another URL.\n")
    ∧ ("Parsing error: " ++ m1 ++ "\nTry a different recipe site.\n")
        ≠ ("Fallback failed: " ++ m3 ++ "\n")
    ∧ ("Could not load page: " ++ m2 ++ "\nTry another URL.\n")
        ≠ ("Fallback failed: " ++ m3 ++ "\n") := by
  refine ⟨rfl, rfl, rfl, rfl, ?_, ?_, ?_⟩
  · exact neOfDataHead _ _ 'P' 'C'
      (dataHeadAppend _ _ _ (dataHeadAppend "Parsing error: " m1 'P' rfl))
      (dataHeadAppend _ _ _ (dataHeadAppend "Could not load page: " m2 'C' rfl))
      (by decide)
  · exact neOfDataHead _ _ 'P' 'F'
      (dataHeadAppend _ _ _ (dataHeadAppend "Parsing error: " m1 'P' rfl))
      (dataHeadAppend _ _ _ (dataHeadAppend "Fallback failed: " m3 'F' rfl))
      (by decide)
  · exact neOfDataHead _ _ 'C' 'F'
      (dataHeadAppend _ _ _ (dataHeadAppend "Could not load page: " m2 'C' rfl))
      (dataHeadAppend _ _ _ (dataHeadAppend "Fallback failed: " m3 'F' rfl))
      (by decide)

/-- Claim C5: for the extraction result in which every optional accessor
returns no value, normalization produces the full set of default
placeholders — default title, `"N/A"` servings, `"Times not available"`,
the default description note, the ingredients and instructions markers —
and no exception escapes (no error segment, second component `none`). -/
theorem C5_thm :
    composeSegs allNoneScraper false =
      [⟨"Recipe (title not found)\n\n", "title"⟩,
       ⟨"Servings: N/A\n", "heading"⟩,
       ⟨"Times not available\n", "heading"⟩,
       ⟨"Notes: No description available.\n\n", "heading"⟩,
       ⟨"Ingredients: (not found)\n\n", "heading"⟩,
       ⟨"Instructions: (not extracted – see original site)\n", "heading"⟩]
    ∧ (composeCore allNoneScraper false).2 = none :=
  ⟨rfl, rfl⟩

/-- Claim C6: a description longer than 600 characters is truncated to
its first 597 characters plus `"..."`, giving exactly 600 characters;
a description of at most 600 characters is unchanged. -/
theorem C6_thm (s : String) :
    (600 < s.length →
      truncateDescription s = pySlice s 597 ++ "..."
      ∧ (truncateDescription s).length = 600)
    ∧ (s.length ≤ 600 → truncateDescription s = s) := by
  constructor
  · intro h
    constructor
    · unfold truncateDescription
      rw [if_pos h]
    · unfold truncateDescription
      rw [if_pos h]
      have h1 : (pySlice s 597 ++ "...").length = (s.data.take 597).length + 3 := by
        rw [strLengthData, strAppendDataEq, List.length_append]
        rfl
      rw [h1, List.length_take]
      rw [strLengthData] at h
      omega
  · intro h
    unfold truncateDescription
    rw [if_neg (by omega)]

/-- Witness for C6 at a 650-character description. -/
theorem C6_witness :
    600 < longDescription.length
    ∧ truncateDescription longDescription = pySlice longDescription 597 ++ "..."
    ∧ (truncateDescription longDescription).length = 600 :=
  ⟨by decide, (C6_thm longDescription).1 (by decide)⟩

/-- Claim C7 (counterexample): the claim says the sanitizer removes
every character outside `[A-Za-z0-9_\s-]`.  Python's `\w` is
Unicode-aware, so the program keeps accented letters: the title
`Caf<U+00E9>!` sanitizes to `Caf<U+00E9>` — a string containing a
character outside the claimed class — not to the `"Caf"` the claimed
class would produce. -/
theorem C7_counterexample :
    sanitizeTitle cafeTitle = "Caf" ++ String.mk [eAcute]
    ∧ eAcute ∈ (sanitizeTitle cafeTitle).data
    ∧ (asciiWordChar eAcute || pyIsSpace eAcute || eAcute == '-') = false
    ∧ pyWordChar eAcute = true
    ∧ sanitizeTitle cafeTitle ≠ "Caf" :=
  ⟨by decide, by decide, by decide, by decide, by decide⟩

/-- Claim C7 (amended): the save filename is `sanitize(title) + ".txt"`,
where the sanitizer keeps exactly the characters matching `\w`,
whitespace and hyphens — `\w` being Python's Unicode-aware word class,
which equals `[A-Za-z0-9_]` on ASCII but also admits non-ASCII word
characters — collapses whitespace runs to single underscores, trims
leading/trailing underscores and substitutes `"edited_recipe"` when
empty.  Stated for every classifier agreeing with `[A-Za-z0-9_]` on the
ASCII range (the true Unicode class is such an instance): the title
`Mom's Apple Pie!` sanitizes to `"Moms_Apple_Pie"`, the timestamp suffix
is inserted before the extension when the file exists, an all-removed
title falls back to `"edited_recipe"`, and every character of a
sanitized title matches `\w` or is a hyphen. -/
theorem C7_amended_thm (w : Char → Bool) (t ts : String)
    (hAscii : ∀ c : Char, c.toNat < 128 → w c = asciiWordChar c) :
    sanitizeTitleW w momsTitle = "Moms_Apple_Pie"
    ∧ saveFileNameW w momsTitle false ts = "Moms_Apple_Pie.txt"
    ∧ saveFileNameW w momsTitle true ts = "Moms_Apple_Pie_" ++ ts ++ ".txt"
    ∧ cleanTitleW w "???" = "edited_recipe"
    ∧ (∀ c, c ∈ (sanitizeTitleW w t).data → (w c = true ∨ c = '-')) := by
  have h1 : sanitizeTitleW w momsTitle = "Moms_Apple_Pie" := by
    unfold sanitizeTitleW
    rw [filterKeepAscii w hAscii momsTitle (by decide)]
    decide
  have hct : cleanTitleW w momsTitle = "Moms_Apple_Pie" := by
    unfold cleanTitleW
    rw [h1]
    decide
  have h4 : cleanTitleW w "???" = "edited_recipe" := by
    have hs0 : sanitizeTitleW w "???" = "" := by
      unfold sanitizeTitleW
      rw [filterKeepAscii w hAscii "???" (by decide)]
      decide
    unfold cleanTitleW
    rw [hs0]
    decide
  refine ⟨h1, ?_, ?_, h4, fun c hc =>
    sanitizeCharsW w (by rw [hAscii '_' (by decide)]; decide) t c hc⟩
  · show cleanTitleW w momsTitle ++ ".txt" = "Moms_Apple_Pie.txt"
    rw [hct]
    decide
  · show (cleanTitleW w momsTitle ++ "_") ++ ts ++ ".txt" = ("Moms_Apple_Pie_" ++ ts) ++ ".txt"
    rw [hct, (by decide : ("Moms_Apple_Pie" ++ "_" : String) = "Moms_Apple_Pie_")]

/-- Witness for C7 (amended) at the `pyWordChar` instance (its ASCII
agreement discharged by `pyWordCharAscii`). -/
theorem C7_amended_witness :
    sanitizeTitleW pyWordChar momsTitle = "Moms_Apple_Pie"
    ∧ cleanTitleW pyWordChar "???" = "edited_recipe" :=
  ⟨(C7_amended_thm pyWordChar "t" "2025-01-02_0304" pyWordCharAscii).1,
   (C7_amended_thm pyWordChar "t" "2025-01-02_0304" pyWordCharAscii).2.2.2.1⟩

/-- Claim C8 (counterexample): the claim says a URL already carrying a
scheme is passed through unchanged; the input `ftp://example.com`
carries a scheme, yet the extractor receives
`https://ftp://example.com`. -/
theorem C8_counterexample :
    (summarize "ftp://example.com" envW []).urlUsed = some "https://ftp://example.com"
    ∧ ("https://ftp://example.com" : String) ≠ "ftp://example.com" :=
  ⟨rfl, by decide⟩

/-- Claim C8 (amended): for every non-blank input, the URL handed to the
extractor is the stripped input prefixed with `https://` exactly when it
does not start with `http://` or `https://`; an input starting with one
of those two prefixes is passed through unchanged, and no other scheme
is ever prepended. -/
theorem C8_amended_thm (u : String) (env : Env) (initial : List Segment)
    (h : pyStripStr u ≠ "") :
    (summarize u env initial).urlUsed = some (normalizeUrl (pyStripStr u))
    ∧ (strStartsWith (pyStripStr u) "http://" = false →
        strStartsWith (pyStripStr u) "https://" = false →
        normalizeUrl (pyStripStr u) = "https://" ++ pyStripStr u)
    ∧ (strStartsWith (pyStripStr u) "http://" = true ∨
        strStartsWith (pyStripStr u) "https://" = true →
        normalizeUrl (pyStripStr u) = pyStripStr u) := by
  refine ⟨?_, ?_, ?_⟩
  · rcases env with ⟨n, fc, g⟩
    cases n <;> cases fc <;> cases g <;> simp [summarize, h]
  · intro h1 h2
    simp [normalizeUrl, h1, h2]
  · intro h12
    rcases h12 with h1 | h1 <;> simp [normalizeUrl, h1]

/-- Witness for C8 (amended) at a scheme-less input. -/
theorem C8_amended_witness :
    pyStripStr "example.com" ≠ ""
    ∧ (summarize "example.com" envW []).urlUsed = some (normalizeUrl (pyStripStr "example.com")) :=
  ⟨by decide, (C8_amended_thm "example.com" envW [] (by decide)).1⟩

/-- Claim C9: when an exception aborts composition of an
otherwise-successful extraction, every segment produced before the
exception stays in the output and a single terminal error segment is
appended after them; in the pipeline the widget holds exactly this
composed sequence, so the partial output is never discarded. -/
theorem C9_thm (s : Scraper) (fb : Bool) (m : String) (f : FetchResult) (g : GenericResult)
    (h : (composeCore s fb).2 = some m) :
    composeSegs s fb = (composeCore s fb).1 ++ [errorSegOf m]
    ∧ (summarize "example.com" ⟨NativeResult.ok s, f, g⟩ []).widget = composeSegs s false := by
  constructor
  · rcases hc : composeCore s fb with ⟨segs, o⟩
    rw [hc] at h
    have ho : o = some m := h
    subst ho
    simp [composeSegs, hc]
  · rfl

/-- Witness for C9 at a scraper whose `title()` raises. -/
theorem C9_witness :
    (composeCore c9Scraper false).2 = some "boom"
    ∧ composeSegs c9Scraper false = (composeCore c9Scraper false).1 ++ [errorSegOf "boom"] :=
  ⟨rfl, (C9_thm c9Scraper false "boom" (FetchResult.ok "") (GenericResult.err "") rfl).1⟩

/-- Claim C10: for every input that strips to the empty string, the
summarize operation only shows the warning box: the output area keeps
its previous contents, nothing is inserted, no fetch is attempted and no
URL reaches the extractor. -/
theorem C10_thm (rawUrl : String) (env : Env) (initial : List Segment)
    (h : pyStripStr rawUrl = "") :
    summarize rawUrl env initial =
      { widget := initial, inserts := [], warned := true,
        fetchAttempted := false, urlUsed := none } := by
  simp [summarize, h]

/-- Witness for C10 at a whitespace-only input. -/
theorem C10_witness :
    pyStripStr "   " = ""
    ∧ summarize "   " envW [loadingSeg] =
      { widget := [loadingSeg], inserts := [], warned := true,
        fetchAttempted := false, urlUsed := none } :=
  ⟨by decide, C10_thm "   " envW [loadingSeg] (by decide)⟩

end RecipeCore
